import Mathlib

/-!
Verification of the classification and data-integrity core of the
`government_github` repository.

The Python sources are shallowly embedded:

* Python strings are modelled as lists of Unicode code points (`List Nat`);
  `str.lower` / `str.upper` are modelled by their ASCII case mapping on code
  points, which is how they act on the job-title alphabet the scripts process.
* `pandas` dataframes are modelled by a `DataFrame` structure recording which
  of the relevant columns are present together with the list of rows; a date
  cell holds the result of `pd.to_datetime(-, errors := coerce)` as an
  `Option Nat` (`none` for a missing or unparseable value, `some n` for a
  parsed timestamp, encoded order-preservingly).
* The JSON baseline file and the metrics artifact are modelled by structures
  whose `Option` fields record presence of the corresponding JSON keys.
* File-system state read and written by one verification run is gathered in a
  `World` structure, and functions that write the baseline return the value
  they write.
-/

/-- Code points of a string literal; Python string literals in the embedded
code are rendered through this helper. -/
def str (s : String) : List Nat := s.data.map Char.toNat

/-- ASCII lowercasing of one code point, the action of Python `str.lower` on
the characters occurring in the embedded scripts. -/
def lowerChar (n : Nat) : Nat := if 65 ≤ n ∧ n ≤ 90 then n + 32 else n

/-- ASCII uppercasing of one code point, the action of Python `str.upper`. -/
def upperChar (n : Nat) : Nat := if 97 ≤ n ∧ n ≤ 122 then n - 32 else n

/-- `str.lower` on a whole string. -/
def lowerStr (s : List Nat) : List Nat := s.map lowerChar

/-- `str.upper` on a whole string. -/
def upperStr (s : List Nat) : List Nat := s.map upperChar

/-- Boolean prefix test on lists (Python `str.startswith`). -/
def isPrefixOfL {α : Type} [DecidableEq α] : List α → List α → Bool
  | [], _ => true
  | _ :: _, [] => false
  | a :: as, b :: bs => a = b && isPrefixOfL as bs

/-- Boolean substring test (Python `pat in s`). -/
def isSubL {α : Type} [DecidableEq α] (pat : List α) : List α → Bool
  | [] => isPrefixOfL pat []
  | b :: bs => isPrefixOfL pat (b :: bs) || isSubL pat bs

/-- Boolean suffix test on lists (Python `str.endswith`). -/
def isSuffixOfL {α : Type} [DecidableEq α] (pat s : List α) : Bool :=
  isPrefixOfL pat.reverse s.reverse

/-- Embedding of `classify_it_specialist.is_it_specialist`.  A `none` title is
Python `None`; the empty list is the empty string (both falsy). -/
def is_it_specialist (title : Option (List Nat)) : Bool :=
  match title with
  | none => false
  | some t =>
    if t = [] then false
    else
      let title_lower := lowerStr t
      if isSubL (str "itspec") title_lower then true
      else if isSubL (str "it") title_lower && isSubL (str "spec") title_lower then true
      else
        let has_it := isSubL (str "it ") title_lower || isPrefixOfL (str "it") title_lower ||
          isSuffixOfL (str "it") title_lower || isSubL (str " it ") title_lower
        let has_specialist := isSubL (str "specialist") title_lower
        let has_info_tech := isSubL (str "information technology") title_lower
        (has_it && has_specialist) || (has_info_tech && has_specialist)

/-- Classification rule written out exactly as the refinement claim words it:
a non-null, non-empty title is accepted iff its lowercasing contains both
"it" and "spec" as substrings, or contains both "information technology" and
"specialist" as substrings. -/
def classifyLoose (title : Option (List Nat)) : Bool :=
  match title with
  | none => false
  | some t =>
    if t = [] then false
    else
      let tl := lowerStr t
      (isSubL (str "it") tl && isSubL (str "spec") tl) ||
        (isSubL (str "information technology") tl && isSubL (str "specialist") tl)

theorem isPrefixOfL_iff {α : Type} [DecidableEq α] (p s : List α) :
    isPrefixOfL p s = true ↔ p <+: s := by
  induction p generalizing s with
  | nil => simp [isPrefixOfL]
  | cons a as ih =>
    cases s with
    | nil => simp [isPrefixOfL]
    | cons b bs =>
      simp only [isPrefixOfL, Bool.and_eq_true, decide_eq_true_eq, ih,
        List.cons_prefix_cons]

theorem isSubL_iff {α : Type} [DecidableEq α] (p s : List α) :
    isSubL p s = true ↔ p <:+: s := by
  induction s with
  | nil =>
    simp [isSubL, isPrefixOfL_iff]
  | cons b bs ih =>
    simp only [isSubL, Bool.or_eq_true, isPrefixOfL_iff, ih,
      List.infix_cons_iff]

theorem isSuffixOfL_iff {α : Type} [DecidableEq α] (p s : List α) :
    isSuffixOfL p s = true ↔ p <:+ s := by
  rw [isSuffixOfL, isPrefixOfL_iff, List.reverse_prefix]

theorem lowerChar_upperChar (n : Nat) : lowerChar (upperChar n) = lowerChar n := by
  unfold lowerChar upperChar
  split_ifs <;> omega

theorem lowerChar_lowerChar (n : Nat) : lowerChar (lowerChar n) = lowerChar n := by
  unfold lowerChar
  split_ifs <;> omega

theorem lowerStr_upperStr (s : List Nat) : lowerStr (upperStr s) = lowerStr s := by
  simp [lowerStr, upperStr, List.map_map, Function.comp_def, lowerChar_upperChar]

theorem lowerStr_lowerStr (s : List Nat) : lowerStr (lowerStr s) = lowerStr s := by
  simp [lowerStr, List.map_map, Function.comp_def, lowerChar_lowerChar]

/-- C8: the classifier's concrete verdicts -- false on null and the empty
string, true on "IT Specialist", "ITSPEC (NETWORK)" and "IT SPEC (SYSADMIN)",
false on "Information Technology Manager", "IT Program Manager" and
"IT System Administrator". -/
theorem classify_concrete_verdicts :
    is_it_specialist none = false ∧
    is_it_specialist (some (str "")) = false ∧
    is_it_specialist (some (str "IT Specialist")) = true ∧
    is_it_specialist (some (str "ITSPEC (NETWORK)")) = true ∧
    is_it_specialist (some (str "IT SPEC (SYSADMIN)")) = true ∧
    is_it_specialist (some (str "Information Technology Manager")) = false ∧
    is_it_specialist (some (str "IT Program Manager")) = false ∧
    is_it_specialist (some (str "IT System Administrator")) = false := by
  decide

theorem is_it_specialist_congr (a b : List Nat) (h0 : a = [] ↔ b = [])
    (h1 : lowerStr a = lowerStr b) :
    is_it_specialist (some a) = is_it_specialist (some b) := by
  by_cases ha : a = []
  · rw [ha, h0.1 ha]
  · have hb : ¬ b = [] := fun h => ha (h0.2 h)
    simp only [is_it_specialist, if_neg ha, if_neg hb, h1]

/-- C9: classification is invariant under upper- and lowercasing of the
title. -/
theorem classify_case_insensitive (s : List Nat) :
    is_it_specialist (some (upperStr s)) = is_it_specialist (some s) ∧
    is_it_specialist (some (lowerStr s)) = is_it_specialist (some s) := by
  refine ⟨is_it_specialist_congr _ _ ?_ (lowerStr_upperStr s),
    is_it_specialist_congr _ _ ?_ (lowerStr_lowerStr s)⟩ <;>
    simp [upperStr, lowerStr]

theorem isSubL_trans {α : Type} [DecidableEq α] {p q tl : List α}
    (hpq : isSubL p q = true) (h : isSubL q tl = true) : isSubL p tl = true := by
  rw [isSubL_iff] at hpq h ⊢
  exact hpq.trans h

theorem isSubL_of_isPrefixOfL {α : Type} [DecidableEq α] {p tl : List α}
    (h : isPrefixOfL p tl = true) : isSubL p tl = true := by
  rw [isSubL_iff]
  exact ((isPrefixOfL_iff p tl).1 h).isInfix

theorem isSubL_of_isSuffixOfL {α : Type} [DecidableEq α] {p tl : List α}
    (h : isSuffixOfL p tl = true) : isSubL p tl = true := by
  rw [isSubL_iff]
  exact ((isSuffixOfL_iff p tl).1 h).isInfix

/-- C10: the classifier is extensionally the loose substring rule -- the
dedicated "itspec" rule and the word-boundary "it"+"specialist" branch accept
no title that the loose "it"+"spec" / "information technology"+"specialist"
rule does not already accept. -/
theorem classify_eq_loose (t : Option (List Nat)) :
    is_it_specialist t = classifyLoose t := by
  match t with
  | none => rfl
  | some s =>
    by_cases hs : s = []
    · simp [is_it_specialist, classifyLoose, hs]
    · simp only [is_it_specialist, classifyLoose, if_neg hs]
      cases hA : isSubL (str "itspec") (lowerStr s) with
      | true =>
        have h1 : isSubL (str "it") (lowerStr s) = true :=
          isSubL_trans (by decide) hA
        have h2 : isSubL (str "spec") (lowerStr s) = true :=
          isSubL_trans (by decide) hA
        simp [h1, h2]
      | false =>
        rw [if_neg Bool.false_ne_true]
        cases hB : (isSubL (str "it") (lowerStr s) && isSubL (str "spec") (lowerStr s)) with
        | true => simp [hB]
        | false =>
          rw [if_neg Bool.false_ne_true]
          cases hsp : isSubL (str "specialist") (lowerStr s) with
          | false => simp
          | true =>
            have h2 : isSubL (str "spec") (lowerStr s) = true :=
              isSubL_trans (by decide) hsp
            have h1 : (isSubL (str "it ") (lowerStr s) || isPrefixOfL (str "it") (lowerStr s) ||
                isSuffixOfL (str "it") (lowerStr s) || isSubL (str " it ") (lowerStr s)) = false := by
              cases hit : (isSubL (str "it ") (lowerStr s) || isPrefixOfL (str "it") (lowerStr s) ||
                  isSuffixOfL (str "it") (lowerStr s) || isSubL (str " it ") (lowerStr s)) with
              | false => rfl
              | true =>
                have : isSubL (str "it") (lowerStr s) = true := by
                  rcases Bool.or_eq_true_iff.1 hit with h | h
                  · rcases Bool.or_eq_true_iff.1 h with h | h
                    · rcases Bool.or_eq_true_iff.1 h with h | h
                      · exact isSubL_trans (by decide) h
                      · exact isSubL_of_isPrefixOfL h
                    · exact isSubL_of_isSuffixOfL h
                  · exact isSubL_trans (by decide) h
                rw [this, h2] at hB
                exact absurd hB (by simp)
            simp [h1]

/-- One row of the jobs dataframe.  Identifier and URI cells are `none` when
the cell is NaN (dropped by `dropna`); a date cell holds the result of
`pd.to_datetime(-, errors := coerce)`, with `none` for a missing or
unparseable value.  Title cells hold strings. -/
structure Job where
  positionID : Option String
  positionURI : Option String
  positionTitle : List Nat
  positionStartDate : Option Nat
  publicationStartDate : Option Nat
deriving DecidableEq

/-- The latest `2210_jobs_*.parquet` dataframe: which of the relevant columns
are present, and the rows. -/
structure DataFrame where
  hasPositionID : Bool
  hasPositionURI : Bool
  hasPositionTitle : Bool
  hasPositionStartDate : Bool
  hasPublicationStartDate : Bool
  rows : List Job
deriving DecidableEq

/-- The persisted `data_baseline.json` object.  `Option` fields model keys
that may be absent from the JSON object (`baseline.get` in the source). -/
structure Baseline where
  created_at : String
  job_ids : List String
  total_jobs : Nat
  most_recent_it_specialist_date : Option Nat
  data_filter : Option String
deriving DecidableEq

/-- Presence of the three sub-fields of `most_recent_it_specialist` in the
metrics artifact. -/
structure RecentInfo where
  hasTitle : Bool
  hasDatePosted : Bool
  hasLink : Bool
deriving DecidableEq

/-- The `data/2210_metrics.json` artifact, as presence of the fields the
verifier inspects; `mostRecentItSpecialist = none` models an absent
`most_recent_it_specialist` key. -/
structure Metrics where
  hasTotal2210Jobs : Bool
  hasItSpecialistJobs : Bool
  hasItSpecialistPercentage : Bool
  mostRecentItSpecialist : Option RecentInfo
deriving DecidableEq

/-- The file-system state one verification run reads: the baseline file (if
present), the latest parquet dataframe (if any), the metrics artifact (if
present), and the run timestamp `datetime.now().isoformat()`. -/
structure World where
  baseline : Option Baseline
  latestParquet : Option DataFrame
  metrics : Option Metrics
  now : String
deriving DecidableEq

/-- Result of `test_no_job_loss`: the verdict, the baseline value written
during the check (if any), and the lost-id list printed on failure. -/
structure LossResult where
  passed : Bool
  written : Option Baseline
  lostReport : List String
deriving DecidableEq

/-- The active filter description, `"Jobs posted since October 1, 2025"`. -/
def currentFilter : String := "Jobs posted since October 1, 2025"

/-- `uri.split('/')[-1]` for URIs containing `'/job/'`, else dropped. -/
def uriJobId (uri : String) : Option String :=
  if isSubL "/job/".data uri.data then some ((uri.splitOn "/").getLastD "")
  else none

/-- Identifier extraction shared by `test_no_job_loss` and
`create_initial_baseline`: the `PositionID` column when present, else ids
recovered from the `PositionURI` column, else nothing. -/
def extractIds (df : DataFrame) : List String :=
  if df.hasPositionID then df.rows.filterMap (fun r => r.positionID)
  else if df.hasPositionURI then
    df.rows.filterMap (fun r => r.positionURI.bind uriJobId)
  else []

/-- Rows classified as IT specialist (`df[df.is_it_specialist == True]`). -/
def itJobs (df : DataFrame) : List Job :=
  df.rows.filter (fun r => is_it_specialist (some r.positionTitle))

/-- `Series.max` of a column of parsed dates. -/
def listMax (xs : List Nat) : Option Nat :=
  xs.foldl (fun a d => some (match a with | none => d | some m => Nat.max m d)) none

/-- One iteration of the date-column loop: replace the running maximum when
the column is non-empty and its maximum is strictly larger. -/
def updateMax (most : Option Nat) (col : List Nat) : Option Nat :=
  match listMax col with
  | none => most
  | some cm =>
    match most with
    | none => some cm
    | some m => if m < cm then some cm else some m

/-- Parsed `PositionStartDate` values of the IT-specialist rows, when that
column exists. -/
def itStartDates (df : DataFrame) : List Nat :=
  if df.hasPositionStartDate then (itJobs df).filterMap (fun r => r.positionStartDate)
  else []

/-- Parsed `PublicationStartDate` values of the IT-specialist rows, when that
column exists. -/
def itPubDates (df : DataFrame) : List Nat :=
  if df.hasPublicationStartDate then (itJobs df).filterMap (fun r => r.publicationStartDate)
  else []

/-- The `most_recent_date` computed by the date-column loop over the
IT-specialist rows. -/
def itMaxDate (df : DataFrame) : Option Nat :=
  updateMax (updateMax none (itStartDates df)) (itPubDates df)

/-- Embedding of `create_initial_baseline`: the dict literal written to
`data_baseline.json` has keys `created_at`, `job_ids`, `total_jobs` and
`most_recent_it_specialist_date` only -- in particular no `data_filter`
key, hence `data_filter := none`. -/
def create_initial_baseline (now : String) (df : DataFrame) : Baseline :=
  { created_at := now
    job_ids := extractIds df
    total_jobs := df.rows.length
    most_recent_it_specialist_date :=
      if df.hasPositionTitle then itMaxDate df else none
    data_filter := none }

/-- `baseline_ids - current_ids`, in baseline order. -/
def lostIds (b : Baseline) (df : DataFrame) : List String :=
  b.job_ids.filter (fun i => decide (i ∉ extractIds df))

/-- Embedding of `test_no_job_loss`. -/
def test_no_job_loss (w : World) : LossResult :=
  match w.latestParquet with
  | none => ⟨false, none, []⟩
  | some df =>
    match w.baseline with
    | none => ⟨true, some (create_initial_baseline w.now df), []⟩
    | some b =>
      if b.data_filter.getD "Unknown" ≠ currentFilter then
        ⟨true, some (create_initial_baseline w.now df), []⟩
      else
        let current_ids := extractIds df
        if current_ids = [] then ⟨false, none, []⟩
        else
          let lost_jobs := lostIds b df
          if lost_jobs = [] then ⟨true, none, []⟩
          else ⟨false, none, lost_jobs.take 10⟩

/-- Embedding of `test_parquet_file_validity`. -/
def test_parquet_file_validity (w : World) : Bool :=
  match w.latestParquet with
  | none => false
  | some df => if df.rows = [] then false else true

/-- Embedding of `test_date_progression`. -/
def test_date_progression (w : World) : Bool :=
  match w.latestParquet, w.baseline with
  | none, _ => true
  | some _, none => true
  | some df, some b =>
    if df.hasPositionTitle then
      if itJobs df = [] then true
      else
        match itMaxDate df with
        | none => true
        | some cur =>
          match b.most_recent_it_specialist_date with
          | none => true
          | some bd => if cur < bd then false else true
    else true

/-- The cutoff `pd.to_datetime('2025-10-01')`, in the order-preserving
encoding used for parsed dates throughout this development. -/
def cutoffDate : Nat := 20251001

/-- Parsed date values of all rows over the two recognized date columns,
when present. -/
def datedValues (df : DataFrame) : List Nat :=
  (if df.hasPositionStartDate then df.rows.filterMap (fun r => r.positionStartDate) else []) ++
    (if df.hasPublicationStartDate then df.rows.filterMap (fun r => r.publicationStartDate) else [])

/-- Embedding of `test_october_filter`. -/
def test_october_filter (w : World) : Bool :=
  match w.latestParquet with
  | none => false
  | some df =>
    let violations := (datedValues df).countP (fun d => decide (d < cutoffDate))
    if violations > 0 then false else true

/-- The `missing_fields` list computed over the four required top-level keys,
in the order the source lists them. -/
def metricsMissingFields (m : Metrics) : List String :=
  (if m.hasTotal2210Jobs then [] else ["total_2210_jobs"]) ++
    (if m.hasItSpecialistJobs then [] else ["it_specialist_jobs"]) ++
    (if m.hasItSpecialistPercentage then [] else ["it_specialist_percentage"]) ++
    (if m.mostRecentItSpecialist.isSome then [] else ["most_recent_it_specialist"])

/-- Embedding of `test_metrics_json`: the verdict together with the
`missing_fields` list reported when top-level keys are absent. -/
def test_metrics_json (mo : Option Metrics) : Bool × List String :=
  match mo with
  | none => (false, [])
  | some m =>
    let missing := metricsMissingFields m
    if missing = [] then
      match m.mostRecentItSpecialist with
      | some r => if r.hasTitle && r.hasDatePosted && r.hasLink then (true, []) else (false, [])
      | none => (false, [])
    else (false, missing)

/-- The world state after `test_no_job_loss`, reflecting any baseline write
it performed (the later checks re-read the baseline file). -/
def afterLoss (w : World) : World :=
  match (test_no_job_loss w).written with
  | some nb => { w with baseline := some nb }
  | none => w

/-- Embedding of `run_tests`: the exit code together with the baseline file
content after the run. -/
def run_tests (w : World) : Nat × Option Baseline :=
  let t1 := test_parquet_file_validity w
  let r2 := test_no_job_loss w
  let w1 := afterLoss w
  let t3 := test_date_progression w1
  let t4 := test_october_filter w1
  let t5 := (test_metrics_json w1.metrics).1
  if t1 && r2.passed && t3 && t4 && t5 then
    match w.latestParquet with
    | some df => (0, some (create_initial_baseline w.now df))
    | none => (0, w1.baseline)
  else (1, w1.baseline)

theorem itMaxDate_of_empty (df : DataFrame) (h : itJobs df = []) :
    itMaxDate df = none := by
  simp [itMaxDate, itStartDates, itPubDates, h, updateMax, listMax]

/-- C2: the baseline object written by the verifier carries no `data_filter`
key -- the dict literal in `create_initial_baseline` writes only
`created_at`, `job_ids`, `total_jobs` and `most_recent_it_specialist_date`,
although `test_no_job_loss` later reads `data_filter` from it. -/
theorem baseline_written_without_data_filter (now : String) (df : DataFrame) :
    (create_initial_baseline now df).data_filter = none := rfl

/-- C3: with an existing baseline whose stored filter equals the active one
and a current dataset with a non-empty extracted identifier set, the
no-job-loss check passes iff every baseline identifier is still present, and
on any missing identifier it fails and reports the first 10 missing ones. -/
theorem no_job_loss_spec (w : World) (df : DataFrame) (b : Baseline)
    (h1 : w.latestParquet = some df) (h2 : w.baseline = some b)
    (h3 : b.data_filter = some currentFilter)
    (h4 : extractIds df ≠ []) :
    ((test_no_job_loss w).passed = true ↔ ∀ i ∈ b.job_ids, i ∈ extractIds df) ∧
    ((∃ i ∈ b.job_ids, i ∉ extractIds df) →
      (test_no_job_loss w).passed = false ∧
      (test_no_job_loss w).lostReport = (lostIds b df).take 10) := by
  have hfilter : ¬ b.data_filter.getD "Unknown" ≠ currentFilter := by
    rw [h3]; simp
  unfold test_no_job_loss
  rw [h1, h2]
  simp only [if_neg hfilter, if_neg h4]
  by_cases hl : lostIds b df = []
  · have hall : ∀ i ∈ b.job_ids, i ∈ extractIds df := by
      intro i hi
      by_contra hni
      have : i ∈ lostIds b df := by
        rw [lostIds, List.mem_filter]
        exact ⟨hi, by simpa using hni⟩
      rw [hl] at this
      exact absurd this (List.not_mem_nil i)
    simp only [if_pos hl]
    refine ⟨⟨fun _ => hall, fun _ => by trivial⟩, ?_⟩
    rintro ⟨i, hi, hni⟩
    exact absurd (hall i hi) hni
  · obtain ⟨i, hi⟩ := List.exists_mem_of_ne_nil _ hl
    have hmem := List.mem_filter.1 hi
    simp only [if_neg hl]
    constructor
    · constructor
      · intro h; exact absurd h (by simp)
      · intro hall
        exact absurd (hall i hmem.1) (by simpa using hmem.2)
    · intro _
      exact ⟨by trivial, by trivial⟩

def bC3 : Baseline := ⟨"c", ["a"], 1, none, some currentFilter⟩
def dfC3 : DataFrame := ⟨true, false, false, false, false, [⟨some "a", none, [], none, none⟩]⟩
def wC3 : World := ⟨some bC3, some dfC3, none, "t"⟩

theorem no_job_loss_spec_witness : (test_no_job_loss wC3).passed = true :=
  ((no_job_loss_spec wC3 dfC3 bC3 rfl rfl rfl (by decide)).1).2 (by decide)

/-- C4: with an existing baseline and a current dataset whose IT-specialist
rows have a maximum parsed date, the date-progression check fails exactly
when that maximum is strictly earlier than the baseline date, passes when it
is equal or later, and passes when the baseline stores no prior date. -/
theorem date_progression_spec (w : World) (df : DataFrame) (b : Baseline) (cur : Nat)
    (h1 : w.latestParquet = some df) (h2 : w.baseline = some b)
    (h3 : df.hasPositionTitle = true) (h4 : itMaxDate df = some cur) :
    (∀ bd, b.most_recent_it_specialist_date = some bd →
      (test_date_progression w = false ↔ cur < bd)) ∧
    (b.most_recent_it_specialist_date = none → test_date_progression w = true) := by
  have hne : ¬ itJobs df = [] := by
    intro h
    rw [itMaxDate_of_empty df h] at h4
    exact Option.noConfusion h4
  unfold test_date_progression
  rw [h1, h2]
  simp only [if_pos h3, if_neg hne, h4]
  constructor
  · intro bd hbd
    rw [hbd]
    by_cases hlt : cur < bd <;> simp [hlt]
  · intro hnone
    rw [hnone]

def bC4 : Baseline := ⟨"c", [], 0, some 5, none⟩
def dfC4 : DataFrame :=
  ⟨false, false, true, true, false, [⟨none, none, str "IT Specialist", some 3, none⟩]⟩
def wC4 : World := ⟨some bC4, some dfC4, none, "t"⟩

theorem date_progression_spec_witness : test_date_progression wC4 = false :=
  ((date_progression_spec wC4 dfC4 bC4 3 rfl rfl rfl (by decide)).1 5 rfl).mpr
    (by decide)

/-- C5: the cutoff-compliance check passes iff every parsed value in the
recognized date columns is at or after the cutoff; in particular one parsed
value strictly before the cutoff fails the whole dataset. -/
theorem october_filter_spec (w : World) (df : DataFrame)
    (h : w.latestParquet = some df) :
    (test_october_filter w = true ↔ ∀ d ∈ datedValues df, cutoffDate ≤ d) ∧
    ((∃ d ∈ datedValues df, d < cutoffDate) → test_october_filter w = false) := by
  unfold test_october_filter
  rw [h]
  by_cases hz : (datedValues df).countP (fun d => decide (d < cutoffDate)) = 0
  · have hall : ∀ d ∈ datedValues df, cutoffDate ≤ d := by
      intro d hd
      have := List.countP_eq_zero.1 hz d hd
      simpa using this
    simp only [hz, gt_iff_lt, Nat.lt_irrefl, if_false]
    refine ⟨⟨fun _ => hall, fun _ => by trivial⟩, ?_⟩
    rintro ⟨d, hd, hlt⟩
    exact absurd hlt (Nat.not_lt.2 (hall d hd))
  · have hpos : (datedValues df).countP (fun d => decide (d < cutoffDate)) > 0 :=
      Nat.pos_of_ne_zero hz
    have hex : ∃ d ∈ datedValues df, d < cutoffDate := by
      by_contra hno
      exact hz (List.countP_eq_zero.2 (fun d hd hdec => hno ⟨d, hd, by simpa using hdec⟩))
    simp only [if_pos hpos]
    refine ⟨⟨fun hft => absurd hft (by simp), fun hall => ?_⟩, fun _ => by trivial⟩
    obtain ⟨d, hd, hlt⟩ := hex
    exact absurd hlt (Nat.not_lt.2 (hall d hd))

def dfC5 : DataFrame :=
  ⟨false, false, false, true, false, [⟨none, none, [], some 20250930, none⟩]⟩
def wC5 : World := ⟨none, some dfC5, none, "t"⟩

theorem october_filter_spec_witness : test_october_filter wC5 = false :=
  (october_filter_spec wC5 dfC5 rfl).2 ⟨20250930, by decide, by decide⟩

/-- C6: the metrics-presence check passes iff the four required top-level
fields are present and the nested `most_recent_it_specialist` object has its
`title`, `date_posted` and `link` sub-fields; a missing top-level field is
named in the reported `missing_fields` list. -/
theorem metrics_presence_spec (m : Metrics) :
    ((test_metrics_json (some m)).1 = true ↔
      (m.hasTotal2210Jobs = true ∧ m.hasItSpecialistJobs = true ∧
        m.hasItSpecialistPercentage = true ∧
        ∃ r, m.mostRecentItSpecialist = some r ∧
          r.hasTitle = true ∧ r.hasDatePosted = true ∧ r.hasLink = true)) ∧
    (m.hasTotal2210Jobs = false → "total_2210_jobs" ∈ (test_metrics_json (some m)).2) ∧
    (m.hasItSpecialistJobs = false → "it_specialist_jobs" ∈ (test_metrics_json (some m)).2) ∧
    (m.hasItSpecialistPercentage = false →
      "it_specialist_percentage" ∈ (test_metrics_json (some m)).2) ∧
    (m.mostRecentItSpecialist = none →
      "most_recent_it_specialist" ∈ (test_metrics_json (some m)).2) := by
  rcases m with ⟨t, j, p, rec⟩
  rcases rec with _ | ⟨rt, rd, rl⟩
  · cases t <;> cases j <;> cases p <;>
      simp [test_metrics_json, metricsMissingFields]
  · cases t <;> cases j <;> cases p <;> cases rt <;> cases rd <;> cases rl <;>
      simp [test_metrics_json, metricsMissingFields]

def mC6 : Metrics := ⟨true, true, false, some ⟨true, true, true⟩⟩

theorem metrics_presence_spec_witness :
    "it_specialist_percentage" ∈ (test_metrics_json (some mC6)).2 :=
  (metrics_presence_spec mC6).2.2.2.1 rfl

/-- C7: the run's exit code is 0 exactly when all five checks (evaluated in
order, the later ones against the baseline state left by the no-job-loss
check) pass, and it is 1 otherwise. -/
theorem run_tests_exit_spec (w : World) :
    ((run_tests w).1 = 0 ↔
      (test_parquet_file_validity w = true ∧ (test_no_job_loss w).passed = true ∧
        test_date_progression (afterLoss w) = true ∧
        test_october_filter (afterLoss w) = true ∧
        (test_metrics_json (afterLoss w).metrics).1 = true)) ∧
    ((run_tests w).1 = 0 ∨ (run_tests w).1 = 1) := by
  unfold run_tests
  by_cases hb : (test_parquet_file_validity w && (test_no_job_loss w).passed &&
      test_date_progression (afterLoss w) && test_october_filter (afterLoss w) &&
      (test_metrics_json (afterLoss w).metrics).1) = true
  · have hconj := hb
    simp only [Bool.and_eq_true] at hconj
    rw [if_pos hb]
    cases w.latestParquet <;>
      exact ⟨⟨fun _ => ⟨hconj.1.1.1.1, hconj.1.1.1.2, hconj.1.1.2, hconj.1.2, hconj.2⟩,
        fun _ => rfl⟩, Or.inl rfl⟩
  · rw [if_neg hb]
    refine ⟨⟨fun h => absurd h (by simp), fun hc => ?_⟩, Or.inr rfl⟩
    exact absurd (by simp [hc.1, hc.2.1, hc.2.2.1, hc.2.2.2.1, hc.2.2.2.2]) hb

def dfC1 : DataFrame := ⟨false, false, false, false, false, []⟩
def wC1 : World := ⟨none, some dfC1, none, "t"⟩

/-- C1 counterexample: with no stored baseline and a present-but-empty
parquet file, the file-validity check fails (exit code 1) yet the run writes
a baseline, because `test_no_job_loss` creates the initial baseline before
the run's verdict is known. -/
theorem baseline_gating_counterexample :
    (run_tests wC1).1 ≠ 0 ∧ (run_tests wC1).2 ≠ wC1.baseline := by decide

/-- C1 amended: `run_tests` performs its final baseline replacement only
when all five checks pass; when some check fails, the baseline after the run
is exactly whatever `test_no_job_loss` left -- unchanged unless that check
itself created or reset the baseline (missing baseline, or stored filter
differing from the active one). -/
theorem run_tests_baseline_gating (w : World) :
    ((run_tests w).1 ≠ 0 → (run_tests w).2 = (afterLoss w).baseline) ∧
    ((run_tests w).1 ≠ 0 → (test_no_job_loss w).written = none →
      (run_tests w).2 = w.baseline) ∧
    ((run_tests w).1 = 0 → ∀ df, w.latestParquet = some df →
      (run_tests w).2 = some (create_initial_baseline w.now df)) := by
  have hafter : (test_no_job_loss w).written = none → (afterLoss w).baseline = w.baseline := by
    intro hn
    rw [afterLoss, hn]
  unfold run_tests
  by_cases hb : (test_parquet_file_validity w && (test_no_job_loss w).passed &&
      test_date_progression (afterLoss w) && test_october_filter (afterLoss w) &&
      (test_metrics_json (afterLoss w).metrics).1) = true
  · rw [if_pos hb]
    cases hp : w.latestParquet with
    | none =>
      refine ⟨fun h => absurd rfl h, fun h => absurd rfl h, fun _ df hdf => ?_⟩
      exact Option.noConfusion hdf
    | some df =>
      refine ⟨fun h => absurd rfl h, fun h => absurd rfl h, fun _ df2 hdf => ?_⟩
      have hdd : df = df2 := Option.some_injective _ hdf
      rw [hdd]
  · rw [if_neg hb]
    cases hp : w.latestParquet <;>
      exact ⟨fun _ => rfl, fun _ hn => hafter hn, fun h => absurd h (by simp)⟩

def bC1w : Baseline := ⟨"c", ["a"], 1, none, some currentFilter⟩
def dfC1w : DataFrame := ⟨true, false, false, false, false, [⟨some "b", none, [], none, none⟩]⟩
def wC1w : World := ⟨some bC1w, some dfC1w, none, "t"⟩

theorem run_tests_baseline_gating_witness : (run_tests wC1w).2 = wC1w.baseline :=
  (run_tests_baseline_gating wC1w).2.1 (by decide) (by decide)
